import Mathlib

/-!
Shallow embedding of the s7 PLC client library (Rust) in Lean 4.

The embedding translates the relevant parts of `src/client.rs`, `src/tcp.rs`,
`src/constant.rs`, `src/transport.rs` and `src/field/bool.rs` into executable
Lean definitions.  Machine integers are modelled as `Int` (for the Rust `i32`
values, with explicit `% 2^w` where a cast truncates) and `Nat` (for byte and
`u16` values, with explicit `% 256` / `% 65536` where overflow matters).  Byte
buffers are `List Nat` where every element is a byte value.  The transport is
modelled by the list of responses the PLC returns, one per exchange, in order;
requests actually sent on the wire are collected in the result so that
theorems can talk about how many exchanges a job issues and what bytes each
request carries.
-/

namespace S7

/-- Error type translated from `src/error.rs` (the variants the modelled code
paths can produce).  `Fuel` is a modelling artifact standing for
non-termination of a source loop; it is unreachable in the scope of every
theorem below.  `Send` stands for the transport reporting an I/O failure,
which in this model happens when the scripted response list is exhausted. -/
inductive S7Error where
  | Response (code : Int)
  | CPU (code : Int)
  | PduLength (len : Int)
  | Send
  | Fuel
  | InvalidCpuStatus (b : Nat)
  | TryFrom (bytes : List Nat)
deriving DecidableEq, Repr

/-- from `src/error.rs`: `ISO_INVALID_PDU` -/
def ISO_INVALID_PDU : Int := 0x00030000

/-- from `src/error.rs`: `ISO_INVALID_DATA_SIZE` -/
def ISO_INVALID_DATA_SIZE : Int := 0x00040000

/-- from `src/error.rs`: `CLI_INVALID_PLC_ANSWER` -/
def CLI_INVALID_PLC_ANSWER : Int := 0x00800000

/-- from `src/error.rs`: `CLI_CANNOT_START_PLC` -/
def CLI_CANNOT_START_PLC : Int := 0x00E00000

/-- from `src/error.rs`: `CLI_ALREADY_RUN` -/
def CLI_ALREADY_RUN : Int := 0x00F00000

/-- from `src/error.rs`: `CLI_CANNOT_STOP_PLC` -/
def CLI_CANNOT_STOP_PLC : Int := 0x01000000

/-- from `src/error.rs`: `CLI_ALREADY_STOP` -/
def CLI_ALREADY_STOP : Int := 0x01300000

/-- Memory area, from `src/constant.rs` (`enum Area`). -/
inductive Area where
  | ProcessInput
  | ProcessOutput
  | Merker
  | DataBausteine
  | Counter
  | Timer
deriving DecidableEq, Repr

/-- The numeric discriminant of `Area` (`area as u8` in the source). -/
def Area.code : Area → Nat
  | .ProcessInput => 0x81
  | .ProcessOutput => 0x82
  | .Merker => 0x83
  | .DataBausteine => 0x84
  | .Counter => 0x1C
  | .Timer => 0x1D

/-- from `src/constant.rs`: word length codes -/
def WL_BIT : Int := 0x01
def WL_BYTE : Int := 0x02
def WL_CHAR : Int := 0x03
def WL_WORD : Int := 0x04
def WL_INT : Int := 0x05
def WL_DWORD : Int := 0x06
def WL_DINT : Int := 0x07
def WL_REAL : Int := 0x08
def WL_COUNTER : Int := 0x1C
def WL_TIMER : Int := 0x1D

/-- from `src/constant.rs`: `fn data_size_byte(word_length: i32) -> i32`. -/
def data_size_byte (word_length : Int) : Int :=
  if word_length = WL_BIT ∨ word_length = WL_BYTE ∨ word_length = WL_CHAR then 1
  else if word_length = WL_WORD ∨ word_length = WL_INT ∨
      word_length = WL_COUNTER ∨ word_length = WL_TIMER then 2
  else if word_length = WL_DWORD ∨ word_length = WL_DINT ∨ word_length = WL_REAL then 4
  else 0

/-- from `src/constant.rs`: `SIZE_HEADER_READ` -/
def SIZE_HEADER_READ : Nat := 31

/-- from `src/constant.rs`: `SIZE_HEADER_WRITE` -/
def SIZE_HEADER_WRITE : Nat := 35

/-- from `src/constant.rs`: result transport size codes -/
def TS_RES_BIT : Nat := 3
def TS_RES_BYTE : Nat := 4
def TS_RES_OCTET : Nat := 9

/-- from `src/transport.rs`: `TELEGRAM_MIN_RESPONSE` -/
def TELEGRAM_MIN_RESPONSE : Nat := 19

/-- from `src/transport.rs`: `PLC_STATUS_MIN_RESPONSE` -/
def PLC_STATUS_MIN_RESPONSE : Nat := 45

/-- from `src/transport.rs`: `MIN_SZL_FIRST_TELEGRAM` -/
def MIN_SZL_FIRST_TELEGRAM : Nat := 42

/-- from `src/transport.rs`: `PDU_START` -/
def PDU_START : Nat := 0x28

/-- from `src/transport.rs`: `PDU_STOP` -/
def PDU_STOP : Nat := 0x29

/-- from `src/transport.rs`: `PDU_ALREADY_STARTED` -/
def PDU_ALREADY_STARTED : Nat := 0x02

/-- from `src/transport.rs`: `PDU_ALREADY_STOPPED` -/
def PDU_ALREADY_STOPPED : Nat := 0x07

/-- from `src/transport.rs`: `READ_WRITE_TELEGRAM` (35 bytes). -/
def READ_WRITE_TELEGRAM : List Nat :=
  [3, 0, 0, 31, 2, 240, 128, 50, 1, 0, 0, 5, 0, 0, 14, 0, 0, 4, 1, 18, 10, 16,
   2, 0, 0, 0, 0, 132, 0, 0, 0, 0, 4, 0, 0]

/-- Big-endian 16-bit read of two bytes of a byte list at position `i`
(`BigEndian::read_u16(&l[i..])` in the source; out-of-range bytes read 0). -/
def be16 (l : List Nat) (i : Nat) : Nat :=
  l.getD i 0 * 256 + l.getD (i + 1) 0

/-- Big-endian 16-bit write of `v as u16` at positions `i`, `i+1`
(`BigEndian::write_u16(&mut l[i..], v)` in the source). -/
def writeU16 (l : List Nat) (i : Nat) (v : Nat) : List Nat :=
  (l.set i (v % 65536 / 256)).set (i + 1) (v % 256)

/-- The low byte of an `Int`, as in `(x & 0xFF) as u8` on a Rust `i32`
(two's complement low byte equals the Euclidean remainder mod 256). -/
def lowByte (x : Int) : Nat := (x % 256).toNat

instance {α β : Type} [DecidableEq α] [DecidableEq β] :
    DecidableEq (Except α β) := fun a b =>
  match a, b with
  | .ok x, .ok y =>
      if h : x = y then .isTrue (by rw [h]) else .isFalse (by intro hc; cases hc; exact h rfl)
  | .error x, .error y =>
      if h : x = y then .isTrue (by rw [h]) else .isFalse (by intro hc; cases hc; exact h rfl)
  | .ok _, .error _ => .isFalse (by intro hc; cases hc)
  | .error _, .ok _ => .isFalse (by intro hc; cases hc)

/-- Outcome of a read job: the status the function returns, the caller's
buffer after the call, the requests handed to `transport.send` in order, and
the `num_elements` of every completed exchange (instrumentation read off the
loop, used to state chunking claims). -/
structure ReadOutcome where
  status : Except S7Error Unit
  buffer : List Nat
  sent : List (List Nat)
  chunks : List Nat
deriving DecidableEq, Repr

/-- The copy loop of `Client::read` (src/client.rs:429-438):
`let (mut i, end) = (25, 25 + size_requested); for k in offset..size_requested
{ if i == end { break; } buffer[k] = response[i]; i += 1; }`.
The executed iterations are `k = offset, …, size_requested - 1` with
`i = 25 + (k - offset)`; since the range has at most `size_requested` entries
the `i == end` break never fires, so `size_requested - offset` (truncated
subtraction: zero when `offset ≥ size_requested`) bytes are copied. -/
def copyChunk (response : List Nat) (offset sizeRequested : Nat)
    (buffer : List Nat) : List Nat :=
  (List.range (sizeRequested - offset)).foldl
    (fun buf j => buf.set (offset + j) (response.getD (25 + j) 0)) buffer

/-- One read request telegram (src/client.rs:378-412): a copy of the first 31
bytes of `READ_WRITE_TELEGRAM` with DB number, area code, word length,
element count and 24-bit address written in. -/
def buildReadRequest (dbB0 dbB1 areaCode : Nat) (wordLen : Int) (start : Int)
    (numElements : Nat) : List Nat :=
  let request := READ_WRITE_TELEGRAM.take SIZE_HEADER_READ
  let request := (request.set 25 dbB0).set 26 dbB1
  let request := request.set 27 areaCode
  let (request, address) :=
    if wordLen = WL_BIT ∨ wordLen = WL_COUNTER ∨ wordLen = WL_TIMER then
      (request.set 22 (wordLen % 256).toNat, start)
    else
      (request, start * 8)
  let request := (request.set 23 (numElements % 65536 / 256)).set 24 (numElements % 256)
  let request := request.set 30 (lowByte address)
  let address := address / 256
  let request := request.set 29 (lowByte address)
  let address := address / 256
  let request := request.set 28 (lowByte address)
  request

/-- The `while tot_elements > 0` loop of `Client::read`
(src/client.rs:370-448).  `fuel` is a structural-recursion bound; every
caller passes `fuel = tot`, which suffices whenever `maxElements ≥ 1`
(each iteration then removes at least one element). -/
def readLoop (maxElements wordSize : Nat) (dbB0 dbB1 areaCode : Nat)
    (wordLen : Int) :
    Nat → Nat → Int → Nat → List (List Nat) → List Nat → ReadOutcome
  | 0, tot, _, _, _, buffer =>
      if tot = 0 then ⟨.ok (), buffer, [], []⟩ else ⟨.error .Fuel, buffer, [], []⟩
  | fuel + 1, tot, start, offset, responses, buffer =>
    if tot = 0 then ⟨.ok (), buffer, [], []⟩
    else
      let numElements := min tot maxElements
      let sizeRequested := numElements * wordSize
      let request := buildReadRequest dbB0 dbB1 areaCode wordLen start numElements
      match responses with
      | [] => ⟨.error .Send, buffer, [request], []⟩
      | response :: rest =>
        if response.length < 25 then
          ⟨.error (.Response ISO_INVALID_DATA_SIZE), buffer, [request], []⟩
        else if response.getD 21 0 ≠ 0xFF then
          ⟨.error (.CPU (response.getD 21 0)), buffer, [request], []⟩
        else
          let buffer := copyChunk response offset sizeRequested buffer
          let out := readLoop maxElements wordSize dbB0 dbB1 areaCode wordLen
            fuel (tot - numElements) (start + numElements * wordSize)
            (offset + sizeRequested) rest buffer
          ⟨out.status, out.buffer, request :: out.sent, numElements :: out.chunks⟩

/-- The word-length override applied at the top of `Client::read` and
`Client::write` (src/client.rs:333-337, 462-466). -/
def effectiveWordLen (area : Area) (wordLen : Int) : Int :=
  match area with
  | .Counter => WL_COUNTER
  | .Timer => WL_TIMER
  | _ => wordLen

/-- `Client::read` (src/client.rs:323-450).  The transport is modelled by
`pduLength` (what `transport.pdu_length()` returns) and `responses` (the
successive replies `transport.send` would produce). -/
def clientRead (area : Area) (dbNumber start amount wordLen : Int)
    (pduLength : Int) (responses : List (List Nat)) (buffer : List Nat) :
    ReadOutcome :=
  let wordLen := effectiveWordLen area wordLen
  let wordSize := data_size_byte wordLen
  if wordSize = 0 then ⟨.error (.Response ISO_INVALID_DATA_SIZE), buffer, [], []⟩
  else
    let (amount, wordSize, wordLen) :=
      if wordLen = WL_BIT then (1, wordSize, wordLen)
      else if wordLen ≠ WL_COUNTER ∧ wordLen ≠ WL_TIMER then
        (amount * wordSize, 1, WL_BYTE)
      else (amount, wordSize, wordLen)
    if pduLength = 0 then ⟨.error (.PduLength pduLength), buffer, [], []⟩
    else
      let maxElements := (pduLength - 18) / wordSize
      let dbB0 := (dbNumber % 65536).toNat / 256
      let dbB1 := (dbNumber % 65536).toNat % 256
      readLoop maxElements.toNat wordSize.toNat dbB0 dbB1 area.code wordLen
        amount.toNat amount.toNat start 0 responses buffer

/-- `Client::ag_read` (src/client.rs:75-90). -/
def agRead (dbNumber start size : Int) (pduLength : Int)
    (responses : List (List Nat)) (buffer : List Nat) : ReadOutcome :=
  clientRead .DataBausteine dbNumber start size WL_BYTE pduLength responses buffer

/-- `Client::mb_read` (src/client.rs:165-167). -/
def mbRead (start size : Int) (pduLength : Int)
    (responses : List (List Nat)) (buffer : List Nat) : ReadOutcome :=
  clientRead .Merker 0 start size WL_BYTE pduLength responses buffer

/-- `Client::eb_read` (src/client.rs:215-224). -/
def ebRead (start size : Int) (pduLength : Int)
    (responses : List (List Nat)) (buffer : List Nat) : ReadOutcome :=
  clientRead .ProcessInput 0 start size WL_BYTE pduLength responses buffer

/-- `Client::ab_read` (src/client.rs:279-288). -/
def abRead (start size : Int) (pduLength : Int)
    (responses : List (List Nat)) (buffer : List Nat) : ReadOutcome :=
  clientRead .ProcessOutput 0 start size WL_BYTE pduLength responses buffer

/-- The chunk-size sequence of the read loop in closed form: while elements
remain, the next chunk carries `min remaining maxElements` elements.  `fuel`
as in `readLoop`; `readChunks` instantiates it with the element total. -/
def readChunksF (maxElements : Nat) : Nat → Nat → List Nat
  | 0, _ => []
  | fuel + 1, tot =>
      if tot = 0 then []
      else min tot maxElements :: readChunksF maxElements fuel (tot - min tot maxElements)

/-- Chunk sizes for a read of `tot` elements with capacity `maxElements`. -/
def readChunks (maxElements tot : Nat) : List Nat :=
  readChunksF maxElements tot tot

/-- Outcome of a write job: the returned status and, for every request handed
to `transport.send` in order, the chunk's `data_size` paired with the full
request telegram (instrumentation used to state the telegram-field claims). -/
structure WriteOutcome where
  status : Except S7Error Unit
  sent : List (Nat × List Nat)
deriving DecidableEq, Repr

/-- One write request telegram (src/client.rs:497-555): a copy of the full
35-byte `READ_WRITE_TELEGRAM` with the sizes, function, DB number, area,
word length, element count, address, transport size and length written in,
and the payload bytes spliced in at position 35. -/
def buildWriteRequest (area : Area) (dbNumber : Int) (wordLen : Int)
    (start : Int) (numElements wordSize : Nat) (payload : List Nat) :
    List Nat :=
  let dataSize := numElements * wordSize
  let isoSize := SIZE_HEADER_WRITE + dataSize
  let request := READ_WRITE_TELEGRAM
  let request := writeU16 request 2 isoSize
  let length := dataSize + 4
  let request := writeU16 request 15 length
  let request := request.set 17 0x05
  let request := request.set 27 area.code
  let request :=
    match area with
    | .DataBausteine => writeU16 request 25 (dbNumber % 65536).toNat
    | _ => request
  let (request, length, address) :=
    if wordLen = WL_BIT ∨ wordLen = WL_COUNTER ∨ wordLen = WL_TIMER then
      (request.set 22 (wordLen % 256).toNat, dataSize, start)
    else
      (request, dataSize * 8, start * 8)
  let request := writeU16 request 23 numElements
  let request := request.set 30 (lowByte address)
  let address := address / 256
  let request := request.set 29 (lowByte address)
  let address := address / 256
  let request := request.set 28 (lowByte address)
  let request :=
    if wordLen = WL_BIT then request.set 32 TS_RES_BIT
    else if wordLen = WL_COUNTER ∨ wordLen = WL_TIMER then request.set 32 TS_RES_OCTET
    else request.set 32 TS_RES_BYTE
  let request := writeU16 request 33 length
  request.take 35 ++ payload ++ request.drop 35

/-- The `while tot_elements > 0` loop of `Client::write`
(src/client.rs:492-581).  `fuel` as in `readLoop`. -/
def writeLoop (maxElements wordSize : Nat) (area : Area) (dbNumber : Int)
    (wordLen : Int) :
    Nat → Nat → Int → Nat → List (List Nat) → List Nat → WriteOutcome
  | 0, tot, _, _, _, _ =>
      if tot = 0 then ⟨.ok (), []⟩ else ⟨.error .Fuel, []⟩
  | fuel + 1, tot, start, offset, responses, buffer =>
    if tot = 0 then ⟨.ok (), []⟩
    else
      let numElements := min tot maxElements
      let dataSize := numElements * wordSize
      let payload := (buffer.drop offset).take dataSize
      let request := buildWriteRequest area dbNumber wordLen start numElements
        wordSize payload
      match responses with
      | [] => ⟨.error .Send, [(dataSize, request)]⟩
      | response :: rest =>
        if response.length ≠ 22 then
          ⟨.error (.Response ISO_INVALID_PDU), [(dataSize, request)]⟩
        else if response.getD 21 0 ≠ 0xFF then
          ⟨.error (.CPU (response.getD 21 0)), [(dataSize, request)]⟩
        else
          let out := writeLoop maxElements wordSize area dbNumber wordLen
            fuel (tot - numElements) (start + numElements * wordSize)
            (offset + dataSize) rest buffer
          ⟨out.status, (dataSize, request) :: out.sent⟩

/-- `Client::write` (src/client.rs:452-583), transport modelled as in
`clientRead`. -/
def clientWrite (area : Area) (dbNumber start amount wordLen : Int)
    (pduLength : Int) (responses : List (List Nat)) (buffer : List Nat) :
    WriteOutcome :=
  let wordLen := effectiveWordLen area wordLen
  let wordSize := data_size_byte wordLen
  if wordSize = 0 then ⟨.error (.Response ISO_INVALID_DATA_SIZE), []⟩
  else
    let (amount, wordSize, wordLen) :=
      if wordLen = WL_BIT then (1, wordSize, wordLen)
      else if wordLen ≠ WL_COUNTER ∧ wordLen ≠ WL_TIMER then
        (amount * wordSize, 1, WL_BYTE)
      else (amount, wordSize, wordLen)
    let maxElements := (pduLength - 35) / wordSize
    writeLoop maxElements.toNat wordSize.toNat area dbNumber wordLen
      amount.toNat amount.toNat start 0 responses buffer

/-- from `src/transport.rs`: `SZL_FIRST_TELEGRAM` (33 bytes). -/
def SZL_FIRST_TELEGRAM : List Nat :=
  [3, 0, 0, 33, 2, 240, 128, 50, 7, 0, 0, 5, 0, 0, 8, 0, 8, 0, 1, 18, 4, 17,
   68, 1, 0, 255, 9, 0, 4, 0, 0, 0, 0]

/-- from `src/transport.rs`: `SZL_NEXT_TELEGRAM` (33 bytes). -/
def SZL_NEXT_TELEGRAM : List Nat :=
  [3, 0, 0, 33, 2, 240, 128, 50, 7, 0, 0, 6, 0, 0, 12, 0, 4, 0, 1, 18, 8, 18,
   68, 1, 1, 0, 0, 0, 0, 10, 0, 0, 0]

/-- from `src/transport.rs`: `struct SZLHeader`. -/
structure SZLHeader where
  lengthHeader : Nat
  numberOfDataRecord : Nat
deriving DecidableEq, Repr

/-- from `src/transport.rs`: `struct S7SZL`. -/
structure S7SZL where
  header : SZLHeader
  data : List Nat
deriving DecidableEq, Repr

/-- The `validate` closure of `Client::read_szl` (src/client.rs:736-749):
fail when the response is shorter than `MIN_SZL_FIRST_TELEGRAM + size`;
fail with `CPU(CLI_INVALID_PLC_ANSWER)` when `be_u16(res[27..29]) != 0`
AND `res[29] != 0xFF`. -/
def szlValidate (res : List Nat) (size : Nat) : Except S7Error Unit :=
  if res.length < MIN_SZL_FIRST_TELEGRAM + size then
    .error (.Response ISO_INVALID_PDU)
  else if be16 res 27 ≠ 0 ∧ res.getD 29 0 ≠ 0xFF then
    .error (.CPU CLI_INVALID_PLC_ANSWER)
  else .ok ()

/-- The `while !done` continuation loop of `Client::read_szl`
(src/client.rs:776-791), structurally recursive on the remaining scripted
responses (each iteration consumes exactly one; an exhausted script is the
transport failing, `Send`).  `len` is the length of the data vector built
from the first response; the loop body replaces `szl.data` by
`vec![0u8; len]`, doubles `length_header` (u16 wrap-around modelled by
`% 65536`) and advances `offset` without copying any payload. -/
def szlLoop (lenFirst : Nat) :
    Bool → Nat → S7SZL → Nat → List (List Nat) → Except S7Error S7SZL
  | true, _, szl, _, _ => .ok szl
  | false, _, _, _, [] => .error .Send
  | false, _, szl, offset, res :: rest =>
    match szlValidate res 0 with
    | .error e => .error e
    | .ok _ =>
      let dataSzl := be16 res 31
      let done := res.getD 26 0 = 0x00
      let seqIn := res.getD 24 0
      let szl : S7SZL := { szl with
        data := List.replicate lenFirst 0,
        header := { szl.header with
          lengthHeader := (szl.header.lengthHeader + szl.header.lengthHeader) % 65536 } }
      szlLoop lenFirst done seqIn szl (offset + dataSzl) rest

/-- `Client::read_szl` (src/client.rs:723-793), transport modelled by the
scripted `responses`.  The request telegrams (`s7_szlfirst`, `s7szlnext`)
are built as in the source but, the transport being scripted, do not
influence the responses. -/
def readSzl (id index : Nat) (responses : List (List Nat)) :
    Except S7Error S7SZL :=
  let seqOut : Nat := 0x0000
  let s7szlfirst := SZL_FIRST_TELEGRAM
  let s7szlfirst := writeU16 s7szlfirst 11 (seqOut + 1)
  let s7szlfirst := writeU16 s7szlfirst 29 id
  let _s7szlfirst := writeU16 s7szlfirst 31 index
  match responses with
  | [] => .error .Send
  | res :: rest =>
    match szlValidate res 0 with
    | .error e => .error e
    | .ok _ =>
      -- `BigEndian::read_u16(res[31..]) - 8` on u16; subtraction below 8
      -- would panic in the source (debug) and is outside every claim.
      let dataSzl := be16 res 31 - 8
      match szlValidate res dataSzl with
      | .error e => .error e
      | .ok _ =>
        let done := res.getD 26 0 = 0x00
        let seqIn := res.getD 24 0
        let header : SZLHeader :=
          { lengthHeader := be16 res 37 * 2 % 65536,
            numberOfDataRecord := be16 res 39 }
        let len := 0 + dataSzl
        let data := (res.drop 41).take dataSzl
        let szl : S7SZL := { header := header, data := data }
        let offset := dataSzl
        szlLoop len done seqIn szl offset rest

/-- `Client::cold_warm_start_stop` (src/client.rs:795-818), response given
directly (the request telegram `req` is sent verbatim and does not influence
the scripted response). -/
def coldWarmStartStop (response : List Nat) (startCmp : Nat) (start : Int)
    (alreadyCmp : Nat) (already : Int) : Except S7Error Unit :=
  if response.length < TELEGRAM_MIN_RESPONSE then
    .error (.Response ISO_INVALID_PDU)
  else if response.getD 17 0 ≠ startCmp then
    .error (.Response start)
  else if response.getD 18 0 = alreadyCmp then
    .error (.Response already)
  else .ok ()

/-- `Client::start` (src/client.rs:588-596). -/
def clientStart (response : List Nat) : Except S7Error Unit :=
  coldWarmStartStop response PDU_START CLI_CANNOT_START_PLC
    PDU_ALREADY_STARTED CLI_ALREADY_RUN

/-- `Client::restart` (src/client.rs:599-607). -/
def clientRestart (response : List Nat) : Except S7Error Unit :=
  coldWarmStartStop response PDU_START CLI_CANNOT_START_PLC
    PDU_ALREADY_STARTED CLI_ALREADY_RUN

/-- `Client::stop` (src/client.rs:610-618). -/
def clientStop (response : List Nat) : Except S7Error Unit :=
  coldWarmStartStop response PDU_STOP CLI_CANNOT_STOP_PLC
    PDU_ALREADY_STOPPED CLI_ALREADY_STOP

/-- CPU status values, from `src/constant.rs` (`CPU_STATUS_UNKNOWN = 0`,
`CPU_STATUS_STOP = 4`, `CPU_STATUS_RUN = 8`). -/
inductive CpuStatus where
  | Unknown
  | Stop
  | Run
deriving DecidableEq, Repr

/-- Modelled from the spec: `CpuStatus::from_u8` is referenced by
`Client::plc_status` (src/client.rs:640) but its definition is missing from
the source snapshot; the spec maps `response[44]` to
`{0: Unknown, 4: Stop, 8: Run}` and any other value to `InvalidCpuStatus`,
matching the `CPU_STATUS_*` constants of `src/constant.rs`. -/
def cpuStatusFromU8 (b : Nat) : Except S7Error CpuStatus :=
  if b = 0 then .ok .Unknown
  else if b = 4 then .ok .Stop
  else if b = 8 then .ok .Run
  else .error (.InvalidCpuStatus b)

/-- `Client::plc_status` (src/client.rs:621-641), response given directly. -/
def plcStatus (response : List Nat) : Except S7Error CpuStatus :=
  if response.length < PLC_STATUS_MIN_RESPONSE then
    .error (.Response ISO_INVALID_PDU)
  else
    let result := be16 response 27
    if result ≠ 0 then .error (.CPU result)
    else cpuStatusFromU8 (response.getD 44 0)

/-- Client connection type, from `src/transport.rs` (`enum Connection`). -/
inductive Connection where
  | PG
  | OP
  | Basic
deriving DecidableEq, Repr

/-- The numeric discriminant of `Connection` (`conn as u16` in the source). -/
def Connection.code : Connection → Nat
  | .PG => 1
  | .OP => 2
  | .Basic => 3

/-- from `src/transport.rs`: `ISO_CONNECTION_REQUEST_TELEGRAM` (22 bytes). -/
def ISO_CONNECTION_REQUEST_TELEGRAM : List Nat :=
  [3, 0, 0, 22, 17, 224, 0, 0, 0, 1, 0, 192, 1, 10, 193, 2, 1, 0, 194, 2, 1, 2]

/-- The TSAP fields computed by `Transport::set_tsap` (src/tcp.rs:103-117).
`remote_tsap = ((conn_type as u16) << 8) + rack*0x20 + slot` in u16
arithmetic, then `& 0xFFFF`; `local_tsap = 0x0100 & 0xFFFF`; each is split
into high and low byte. -/
structure Tsap where
  localTsap : Nat
  localHigh : Nat
  localLow : Nat
  remoteTsap : Nat
  remoteHigh : Nat
  remoteLow : Nat
deriving DecidableEq, Repr

/-- `Transport::set_tsap` (src/tcp.rs:103-117); `rack` and `slot` are `u16`
values, the u16 wrap-around of the sum is `% 65536`. -/
def setTsap (conn : Connection) (rack slot : Nat) : Tsap :=
  let remoteTsap := (conn.code * 2 ^ 8 + rack * 0x20 + slot) % 65536
  let localTsap := 0x0100 % 65536
  { localTsap := localTsap,
    localHigh := localTsap / 2 ^ 8 % 256,
    localLow := localTsap % 256,
    remoteTsap := remoteTsap,
    remoteHigh := remoteTsap / 2 ^ 8 % 256,
    remoteLow := remoteTsap % 256 }

/-- The connection-request telegram built by `Transport::iso_connect`
(src/tcp.rs:119-126): the fixed template with bytes 16,17 overwritten by the
local TSAP and bytes 20,21 by the remote TSAP. -/
def isoConnectMsg (conn : Connection) (rack slot : Nat) : List Nat :=
  let t := setTsap conn rack slot
  let msg := ISO_CONNECTION_REQUEST_TELEGRAM
  let msg := msg.set 16 t.localHigh
  let msg := msg.set 17 t.localLow
  let msg := msg.set 20 t.remoteHigh
  msg.set 21 t.remoteLow

/-- The `Bool` field of `src/field/bool.rs`: data block number, the bit
position within the byte, the stored byte and the decoded bit value.
The source keys the bit position on a fractional offset `o : f32` through
`((o * 10.0) as usize % 10) as u8`; the embedding takes that computed bit
position (`bitPos`) as the parameter, as the claim itself does. -/
structure SBool where
  dataBlock : Int
  bitPos : Nat
  byte : Nat
  value : Bool
deriving DecidableEq, Repr

/-- `Bool::new` (src/field/bool.rs:19-42): requires a single-byte buffer and
a bit position at most 7; decodes the bit at `bitPos`. -/
def boolNew (dataBlock : Int) (bitPos : Nat) (bytes : List Nat) :
    Except S7Error SBool :=
  if bytes.length ≠ 1 then .error (.TryFrom bytes)
  else if 7 < bitPos then .error (.TryFrom bytes)
  else
    .ok { dataBlock := dataBlock, bitPos := bitPos, byte := bytes.getD 0 0,
          value := bytes.getD 0 0 &&& (1 <<< bitPos) ≠ 0 }

/-- `Bool::set_value_at` (src/field/bool.rs:44-50):
`b | (1 << bit_pos)` when setting, `b & !(1 << bit_pos)` when clearing
(`!` on `u8` is bitwise complement, `0xFF ^^^ mask`). -/
def setValueAt (b : Nat) (bitPos : Nat) (val : Bool) : Nat :=
  if val then b ||| (1 <<< bitPos)
  else b &&& (0xFF ^^^ (1 <<< bitPos))

/-- `Bool::set_value` (src/field/bool.rs:61-68). -/
def SBool.setValue (f : SBool) (v : Bool) : SBool :=
  { f with value := v, byte := setValueAt f.byte f.bitPos v }

/-- `Bool::to_bytes` (src/field/bool.rs:80-82). -/
def SBool.toBytes (f : SBool) : List Nat := [f.byte]

/-! Concrete transport scripts used by the counterexample and code-bug
theorems below.  Each is a full PLC response frame as `Transport::send`
returns it (TPKT header included in the byte count). -/

/-- A valid first read response (35 bytes): success marker `0xFF` at byte 21,
ten payload bytes `1..10` from byte 25. -/
def c1resp1 : List Nat :=
  List.replicate 21 0 ++ [0xFF, 0, 0, 0] ++ [1, 2, 3, 4, 5, 6, 7, 8, 9, 10]

/-- A valid second read response (27 bytes): success marker at byte 21, two
payload bytes `11, 12` from byte 25. -/
def c1resp2 : List Nat :=
  List.replicate 21 0 ++ [0xFF, 0, 0, 0] ++ [11, 12]

/-- A first SZL response (46 bytes): sequence byte 1 at [24], not final
(`[26] = 1`), error word 0 at [27..29], return code `0xFF` at [29],
`be_u16([31..33]) = 12` so `data_len = 4`, header words 2 and 3 at
[37..41], payload `AA BB CC DD` at [41..45]. -/
def c4resp1 : List Nat :=
  List.replicate 24 0 ++ [1, 0, 1, 0, 0, 0xFF, 0, 0, 12] ++
    List.replicate 4 0 ++ [0, 2, 0, 3] ++ [0xAA, 0xBB, 0xCC, 0xDD] ++ [0]

/-- A final SZL continuation response (46 bytes): final (`[26] = 0`), error
word 0, return code `0xFF`, `be_u16([31..33]) = 4`, payload `11 22 33 44`
at [41..45]. -/
def c4resp2 : List Nat :=
  List.replicate 24 0 ++ [2, 0, 0, 0, 0, 0xFF, 0, 0, 4] ++
    List.replicate 8 0 ++ [0x11, 0x22, 0x33, 0x44] ++ [0]

/-- A 42-byte SZL response whose CPU error word `be_u16([27..29])` is 1
(an explicit PLC error) while the return code at [29] is `0xFF`. -/
def c5resp : List Nat :=
  List.replicate 27 0 ++ [0, 1, 0xFF] ++ List.replicate 12 0

/-- A 19-byte CPU-control response with the start opcode `0x28` at byte 17
and a non-already marker 0 at byte 18. -/
def c6resp : List Nat :=
  List.replicate 17 0 ++ [0x28, 0]

/-- A minimal valid read response (25 bytes, success marker at byte 21). -/
def c2resp : List Nat :=
  List.replicate 21 0 ++ [0xFF, 0, 0, 0]

/-- A valid write response (exactly 22 bytes, success marker at byte 21). -/
def c3resp : List Nat :=
  List.replicate 21 0 ++ [0xFF]

/-- The write request telegram the job of `c3_write_length_fields_witness`
sends: one chunk of one byte `0xAB` to DB 1 at start 0 (36 bytes: 35-byte
header plus the payload byte). -/
def c3req : List Nat :=
  [3, 0, 0, 36, 2, 240, 128, 50, 1, 0, 0, 5, 0, 0, 14, 0, 5, 5, 1, 18, 10,
   16, 2, 0, 1, 0, 1, 132, 0, 0, 0, 0, 4, 0, 8, 0xAB]

end S7

namespace S7

/-- C1: the claim states that each per-chunk response payload lands in
`buffer[offset..offset+size]` so that a multi-chunk read fills every chunk's
region of the buffer and the whole job delivers `element_count ×
element_byte_size` bytes.  The code's copy loop is `for k in
offset..size_requested` instead of `offset..offset + size_requested`, so on
the second chunk (offset 10, size 2) the range `10..2` is empty and nothing
is copied: a 12-byte read over a transport with PDU length 28 (two chunks of
10 and 2 elements) succeeds but delivers only the first 10 bytes, leaving
`buffer[10..12]` untouched.  This theorem exhibits the failing run. -/
theorem c1_read_second_chunk_dropped :
    (agRead 0 0 12 28 [c1resp1, c1resp2] (List.replicate 12 0)).status
        = Except.ok () ∧
    (agRead 0 0 12 28 [c1resp1, c1resp2] (List.replicate 12 0)).chunks
        = [10, 2] ∧
    (agRead 0 0 12 28 [c1resp1, c1resp2] (List.replicate 12 0)).buffer
        = [1, 2, 3, 4, 5, 6, 7, 8, 9, 10, 0, 0] ∧
    (agRead 0 0 12 28 [c1resp1, c1resp2] (List.replicate 12 0)).buffer
        ≠ [1, 2, 3, 4, 5, 6, 7, 8, 9, 10, 11, 12] := by
  refine ⟨by decide, by decide, by decide, by decide⟩

/-- C4: the claim states that every continuation response's payload bytes
from offset 41 are appended, the result being the concatenation of all
payloads.  In the code the continuation loop replaces `szl.data` by
`vec![0u8; len]` (zeros of the first chunk's length) and never copies any
continuation payload, so a two-exchange SZL query returns four zero bytes
instead of the eight concatenated payload bytes `AA BB CC DD 11 22 33 44`
(it also destroys the first chunk's own payload).  This theorem exhibits
the failing run. -/
theorem c4_szl_data_not_appended :
    readSzl 0x001C 0 [c4resp1, c4resp2]
        = Except.ok ⟨⟨8, 3⟩, [0, 0, 0, 0]⟩ ∧
    ([0, 0, 0, 0] : List Nat)
        ≠ [0xAA, 0xBB, 0xCC, 0xDD, 0x11, 0x22, 0x33, 0x44] := by
  refine ⟨by decide, by decide⟩

/-- C5: the claim states that the SZL validation fails whenever the success
condition `be_u16(response[27..29]) == 0 AND response[29] == 0xFF` does not
hold, i.e. already when the error word alone is nonzero.  The code joins the
two failure tests with `&&` instead of `||`
(`if be_u16(res[27..]) != 0 && res[29] != 0xFF`), so a 42-byte response
carrying the explicit CPU error word 1 together with return code `0xFF` is
accepted.  This theorem exhibits the accepting run (the length half of the
claim does hold: a 41-byte response is rejected). -/
theorem c5_szl_validate_accepts_error_word :
    szlValidate c5resp 0 = Except.ok () ∧
    be16 c5resp 27 = 1 ∧
    c5resp.getD 29 0 = 0xFF ∧
    c5resp.length = 42 ∧
    szlValidate (List.replicate 41 0) 0
        = Except.error (.Response ISO_INVALID_PDU) := by
  refine ⟨by decide, by decide, by decide, by decide, by decide⟩

/-- C6 counterexample: the claim requires the response length to be strictly
greater than `TELEGRAM_MIN_RESPONSE = 19`, but the code only rejects lengths
strictly below 19 (`if response.len() < TELEGRAM_MIN_RESPONSE`): a 19-byte
response with the expected start opcode is accepted. -/
theorem c6_control_length_counterexample :
    c6resp.length = 19 ∧ clientStart c6resp = Except.ok () := by
  refine ⟨by decide, by decide⟩

/-- C6 as amended (the length bound is ≥ 19, not > 19): for every CPU
control command the shared validation fails with `Response(ISO_INVALID_PDU)`
iff the response is shorter than `TELEGRAM_MIN_RESPONSE = 19`; otherwise it
fails with `Response(cannot_start_plc | cannot_stop_plc)` iff byte 17
differs from the expected opcode (`0x28` for start and restart, `0x29` for
stop), then fails with `Response(already_run | already_stop)` iff byte 18
equals the already-in-that-state marker (`0x02` started, `0x07` stopped),
and otherwise returns `Ok`. -/
theorem c6_control_response_validation (response : List Nat) :
    clientStart response
        = (if response.length < 19 then
            Except.error (.Response ISO_INVALID_PDU)
          else if response.getD 17 0 ≠ 0x28 then
            Except.error (.Response CLI_CANNOT_START_PLC)
          else if response.getD 18 0 = 0x02 then
            Except.error (.Response CLI_ALREADY_RUN)
          else Except.ok ()) ∧
    clientRestart response
        = (if response.length < 19 then
            Except.error (.Response ISO_INVALID_PDU)
          else if response.getD 17 0 ≠ 0x28 then
            Except.error (.Response CLI_CANNOT_START_PLC)
          else if response.getD 18 0 = 0x02 then
            Except.error (.Response CLI_ALREADY_RUN)
          else Except.ok ()) ∧
    clientStop response
        = (if response.length < 19 then
            Except.error (.Response ISO_INVALID_PDU)
          else if response.getD 17 0 ≠ 0x29 then
            Except.error (.Response CLI_CANNOT_STOP_PLC)
          else if response.getD 18 0 = 0x07 then
            Except.error (.Response CLI_ALREADY_STOP)
          else Except.ok ()) := by
  exact ⟨rfl, rfl, rfl⟩

/-- C7: `plc_status` rejects responses shorter than 45 bytes with
`Response(ISO_INVALID_PDU)`; otherwise a nonzero CPU error word
`be_u16(response[27..29])` yields `CPU` carrying that value; otherwise byte
44 is mapped by `0 ↦ Unknown`, `4 ↦ Stop`, `8 ↦ Run` and every other value
yields `InvalidCpuStatus`. -/
theorem c7_plc_status_mapping (response : List Nat) :
    plcStatus response
        = (if response.length < 45 then
            Except.error (.Response ISO_INVALID_PDU)
          else if be16 response 27 ≠ 0 then
            Except.error (.CPU (be16 response 27))
          else if response.getD 44 0 = 0 then Except.ok .Unknown
          else if response.getD 44 0 = 4 then Except.ok .Stop
          else if response.getD 44 0 = 8 then Except.ok .Run
          else Except.error (.InvalidCpuStatus (response.getD 44 0))) := by
  rfl

/-- C8: for every connection role (codes 1, 2, 3) and u16 rack and slot, the
derived remote TSAP is `((role_code << 8) + rack*0x20 + slot)` masked to 16
bits and the local TSAP is `0x0100`; the ISO connection request telegram
carries the local TSAP high and low bytes at positions 16 and 17 and the
remote TSAP high and low bytes at positions 20 and 21.  In particular for
role PG, rack 5, slot 5 the remote TSAP is `0x01A5`, so bytes 20, 21 are
`0x01, 0xA5` and bytes 16, 17 are `0x01, 0x00`. -/
theorem c8_tsap_derivation (conn : Connection) (rack slot : Nat) :
    (setTsap conn rack slot).remoteTsap
        = (conn.code <<< 8 + rack * 0x20 + slot) % 2 ^ 16 ∧
    (setTsap conn rack slot).localTsap = 0x0100 ∧
    (isoConnectMsg conn rack slot).getD 16 0 = (setTsap conn rack slot).localTsap / 256 ∧
    (isoConnectMsg conn rack slot).getD 17 0 = (setTsap conn rack slot).localTsap % 256 ∧
    (isoConnectMsg conn rack slot).getD 20 0 = (setTsap conn rack slot).remoteTsap / 256 ∧
    (isoConnectMsg conn rack slot).getD 21 0 = (setTsap conn rack slot).remoteTsap % 256 ∧
    (setTsap .PG 5 5).remoteTsap = 0x01A5 ∧
    (isoConnectMsg .PG 5 5).getD 20 0 = 0x01 ∧
    (isoConnectMsg .PG 5 5).getD 21 0 = 0xA5 ∧
    (isoConnectMsg .PG 5 5).getD 16 0 = 0x01 ∧
    (isoConnectMsg .PG 5 5).getD 17 0 = 0x00 := by
  have hremote : (setTsap conn rack slot).remoteTsap < 65536 :=
    Nat.mod_lt _ (by norm_num)
  refine ⟨?_, rfl, ?_, ?_, ?_, ?_, by decide, by decide, by decide, by decide, by decide⟩
  · simp [setTsap, Nat.shiftLeft_eq]
  all_goals
    simp [isoConnectMsg, ISO_CONNECTION_REQUEST_TELEGRAM, setTsap, List.set]
  all_goals omega

/-- C10: a read call (and hence `ag_read`, `mb_read`, `eb_read`, `ab_read`)
on a transport whose `pdu_length()` is 0, with a word length of nonzero data
size, returns `Error::PduLength(0)` with no request sent on the transport
and the caller's buffer unchanged. -/
theorem c10_read_pdu_zero (area : Area) (db start amount wordLen : Int)
    (responses : List (List Nat)) (buffer : List Nat)
    (hwl : data_size_byte (effectiveWordLen area wordLen) ≠ 0) :
    clientRead area db start amount wordLen 0 responses buffer
        = ⟨Except.error (.PduLength 0), buffer, [], []⟩ ∧
    agRead db start amount 0 responses buffer
        = ⟨Except.error (.PduLength 0), buffer, [], []⟩ ∧
    mbRead start amount 0 responses buffer
        = ⟨Except.error (.PduLength 0), buffer, [], []⟩ ∧
    ebRead start amount 0 responses buffer
        = ⟨Except.error (.PduLength 0), buffer, [], []⟩ ∧
    abRead start amount 0 responses buffer
        = ⟨Except.error (.PduLength 0), buffer, [], []⟩ := by
  refine ⟨?_, by simp [agRead, clientRead, effectiveWordLen, data_size_byte, WL_BYTE],
    by simp [mbRead, clientRead, effectiveWordLen, data_size_byte, WL_BYTE],
    by simp [ebRead, clientRead, effectiveWordLen, data_size_byte, WL_BYTE],
    by simp [abRead, clientRead, effectiveWordLen, data_size_byte, WL_BYTE]⟩
  simp only [clientRead, if_neg hwl]
  split <;> first | rfl | simp_all

/-- C10 witness: a concrete byte read (DB 1, start 0, one byte) on a
transport with PDU length 0. -/
theorem c10_read_pdu_zero_witness :
    data_size_byte (effectiveWordLen .DataBausteine WL_BYTE) ≠ 0 ∧
    clientRead .DataBausteine 1 0 1 WL_BYTE 0 [] [0]
        = ⟨Except.error (.PduLength 0), [0], [], []⟩ :=
  ⟨by decide, (c10_read_pdu_zero .DataBausteine 1 0 1 WL_BYTE [] [0] (by decide)).1⟩

end S7

namespace S7

/-- C9: for every data block, bit position at most 7 and single-byte buffer
`[b]`, `Bool::new` succeeds and `to_bytes` returns `[b]` unchanged when
`set_value` has not been called; after `set_value(v)` the output byte is
`b | (1 << pos)` when `v` is true and `b & !(1 << pos)` when `v` is false,
so the bit at `pos` equals `v` and every other bit of the byte is
unchanged. -/
theorem c9_bool_bit_update (db : Int) (p b : Nat) (v : Bool)
    (hp : p ≤ 7) (hb : b < 256) :
    ((boolNew db p [b]).map SBool.toBytes) = Except.ok [b] ∧
    ((boolNew db p [b]).map (fun f => (f.setValue v).toBytes))
        = Except.ok [setValueAt b p v] ∧
    (setValueAt b p v).testBit p = v ∧
    (∀ i, i ≠ p → (setValueAt b p v).testBit i = b.testBit i) ∧
    (v = true → setValueAt b p v = b ||| (1 <<< p)) ∧
    (v = false → setValueAt b p v = b &&& (0xFF ^^^ (1 <<< p))) := by
  have hp8 : p < 8 := by omega
  have hmask : ∀ i : Nat, (0xFF : Nat).testBit i = decide (i < 8) := by
    intro i
    have h : (0xFF : Nat) = 2 ^ 8 - 1 := by norm_num
    rw [h]
    exact Nat.testBit_two_pow_sub_one 8 i
  refine ⟨?_, ?_, ?_, ?_, ?_, ?_⟩
  · simp [boolNew, Nat.not_lt.mpr hp, SBool.toBytes, Except.map]
  · simp [boolNew, Nat.not_lt.mpr hp, SBool.setValue, SBool.toBytes, Except.map]
  · cases v with
    | true =>
        simp [setValueAt, Nat.one_shiftLeft, Nat.testBit_two_pow_self]
    | false =>
        simp [setValueAt, Nat.one_shiftLeft, hmask, hp8]
  · intro i hi
    cases v with
    | true =>
        simp [setValueAt, Nat.one_shiftLeft,
          Nat.testBit_two_pow_of_ne (fun h => hi h.symm)]
    | false =>
        by_cases hi8 : i < 8
        · simp [setValueAt, Nat.one_shiftLeft, hmask, hi8,
            Nat.testBit_two_pow_of_ne (fun h => hi h.symm)]
        · have h2i : (256 : Nat) ≤ 2 ^ i := by
            calc (256 : Nat) = 2 ^ 8 := by norm_num
              _ ≤ 2 ^ i := Nat.pow_le_pow_right (by norm_num) (by omega)
          have hbi : b.testBit i = false :=
            Nat.testBit_lt_two_pow (lt_of_lt_of_le hb h2i)
          simp [setValueAt, Nat.one_shiftLeft, hmask, hbi]
  · intro h; subst h; rfl
  · intro h; subst h; rfl

/-- C9 witness: data block 888, bit position 1, original byte 1, setting the
bit to true gives byte 3 (the repository's own `test_bool` values). -/
theorem c9_bool_bit_update_witness :
    ((1 : Nat) ≤ 7 ∧ (1 : Nat) < 256) ∧
    ((boolNew 888 1 [1]).map (fun f => (f.setValue true).toBytes))
        = Except.ok [setValueAt 1 1 true] ∧
    setValueAt 1 1 true = 3 :=
  ⟨by decide,
   (c9_bool_bit_update 888 1 1 true (by decide) (by decide)).2.1,
   by decide⟩

end S7

namespace S7

/-- The fuel argument of `readChunksF` is irrelevant once it dominates the
element total (helper for the chunking claims). -/
theorem readChunksF_congr (maxE : Nat) (hmax : 1 ≤ maxE) :
    ∀ f1 f2 tot, tot ≤ f1 → tot ≤ f2 →
      readChunksF maxE f1 tot = readChunksF maxE f2 tot := by
  intro f1
  induction f1 with
  | zero =>
      intro f2 tot h1 h2
      have h0 : tot = 0 := by omega
      subst h0
      cases f2 <;> simp [readChunksF]
  | succ f ih =>
      intro f2 tot h1 h2
      by_cases h0 : tot = 0
      · subst h0
        cases f2 <;> simp [readChunksF]
      · obtain ⟨g, rfl⟩ : ∃ g, f2 = g + 1 := ⟨f2 - 1, by omega⟩
        simp only [readChunksF, if_neg h0]
        congr 1
        exact ih g (tot - min tot maxE) (by omega) (by omega)

/-- Unfolding equation of `readChunks`: while elements remain, the next chunk
carries `min remaining maxElements` elements. -/
theorem readChunks_succ (maxE tot : Nat) (hmax : 1 ≤ maxE) (htot : 1 ≤ tot) :
    readChunks maxE tot = min tot maxE :: readChunks maxE (tot - min tot maxE) := by
  obtain ⟨t, rfl⟩ : ∃ t, tot = t + 1 := ⟨tot - 1, by omega⟩
  simp only [readChunks, readChunksF, if_neg (by omega : ¬ t + 1 = 0)]
  congr 1
  exact readChunksF_congr maxE hmax t (t + 1 - min (t + 1) maxE)
    (t + 1 - min (t + 1) maxE) (by omega) (by omega)

/-- The number of chunks of a read of `tot` elements with per-PDU capacity
`maxElements ≥ 1` is `⌈tot / maxElements⌉`. -/
theorem readChunks_length (maxE : Nat) (hmax : 1 ≤ maxE) :
    ∀ tot, (readChunks maxE tot).length = (tot + maxE - 1) / maxE := by
  intro tot
  induction tot using Nat.strong_induction_on with
  | _ tot ih =>
    by_cases h0 : tot = 0
    · subst h0
      simp [readChunks, readChunksF]
      exact (Nat.div_eq_of_lt (by omega)).symm
    · rw [readChunks_succ maxE tot hmax (by omega)]
      rw [List.length_cons, ih (tot - min tot maxE) (by omega)]
      rcases le_or_lt tot maxE with hle | hlt
      · have h1 : min tot maxE = tot := by omega
        rw [h1, Nat.sub_self, Nat.zero_add]
        rw [Nat.div_eq_of_lt (by omega)]
        have h2 : (tot + maxE - 1) / maxE = 1 := by
          apply Nat.div_eq_of_lt_le <;> omega
        omega
      · have h1 : min tot maxE = maxE := by omega
        rw [h1]
        have h2 : tot - maxE + maxE - 1 = tot - 1 := by omega
        have h3 : tot + maxE - 1 = tot - 1 + maxE := by omega
        rw [h2, h3, Nat.add_div_right _ (by omega)]

/-- Invariant of the read loop: with capacity at least one element per PDU,
a response script whose entries are all valid (length at least 25 and
success marker `0xFF` at byte 21) and long enough makes the loop succeed,
and the chunk sizes it issues are exactly `readChunksF`. -/
theorem readLoop_ok (maxE wsz db0 db1 ac : Nat) (wl : Int) (hmax : 1 ≤ maxE) :
    ∀ fuel tot start offset responses buffer, tot ≤ fuel →
      tot ≤ responses.length →
      (∀ r ∈ responses, 25 ≤ r.length ∧ r.getD 21 0 = 0xFF) →
      (readLoop maxE wsz db0 db1 ac wl fuel tot start offset responses
          buffer).status = Except.ok () ∧
      (readLoop maxE wsz db0 db1 ac wl fuel tot start offset responses
          buffer).chunks = readChunksF maxE fuel tot ∧
      (readLoop maxE wsz db0 db1 ac wl fuel tot start offset responses
          buffer).sent.length = (readChunksF maxE fuel tot).length := by
  intro fuel
  induction fuel with
  | zero =>
      intro tot start offset responses buffer h1 h2 h3
      have h0 : tot = 0 := by omega
      subst h0
      simp [readLoop, readChunksF]
  | succ f ih =>
      intro tot start offset responses buffer h1 h2 h3
      by_cases h0 : tot = 0
      · subst h0
        simp [readLoop, readChunksF]
      · obtain ⟨r, rest, rfl⟩ : ∃ r rest, responses = r :: rest := by
          cases responses with
          | nil => simp at h2; omega
          | cons r rest => exact ⟨r, rest, rfl⟩
        have hr := h3 r (List.mem_cons_self r rest)
        have hnlt : ¬ (r.length < 25) := by omega
        have hff : ¬ (r.getD 21 0 ≠ 0xFF) := by rw [hr.2]; simp
        have hrec := ih (tot - min tot maxE)
          (start + (min tot maxE : Nat) * (wsz : Nat))
          (offset + min tot maxE * wsz) rest
          (copyChunk r offset (min tot maxE * wsz) buffer)
          (by omega) (by simp at h2; omega)
          (fun q hq => h3 q (List.mem_cons_of_mem r hq))
        simp only [readLoop, if_neg h0, if_neg hnlt, if_neg hff]
        have hunf : readChunksF maxE (f + 1) tot
            = min tot maxE :: readChunksF maxE f (tot - min tot maxE) := by
          simp only [readChunksF, if_neg h0]
        refine ⟨hrec.1, ?_, ?_⟩
        · rw [hunf, hrec.2.1]
        · rw [hunf, List.length_cons, List.length_cons, hrec.2.2]

end S7

namespace S7

/-- C2: a byte-oriented read of `n ≥ 1` bytes over a transport with
negotiated PDU length `p > 18` issues exactly `⌈n / (p − 18)⌉`
request/response exchanges; the chunk sizes are `readChunks (p − 18) n`,
whose defining recurrence (last conjunct) carries `min(remaining, p − 18)`
elements per chunk, `p − 18` being `(pdu_length − 18) / byte_size` with
byte size 1.  The response script must hold one valid response per
exchange (`n` responses more than suffice). -/
theorem c2_read_chunk_count (area : Area) (db start : Int) (n p : Nat)
    (responses : List (List Nat)) (buffer : List Nat)
    (hcounter : area ≠ .Counter) (htimer : area ≠ .Timer)
    (hn : 1 ≤ n) (hp : 19 ≤ p)
    (hlen : n ≤ responses.length)
    (hresp : ∀ r ∈ responses, 25 ≤ r.length ∧ r.getD 21 0 = 0xFF) :
    (clientRead area db start (n : Int) WL_BYTE (p : Int) responses
        buffer).status = Except.ok () ∧
    (clientRead area db start (n : Int) WL_BYTE (p : Int) responses
        buffer).chunks = readChunks (p - 18) n ∧
    (clientRead area db start (n : Int) WL_BYTE (p : Int) responses
        buffer).sent.length = (n + (p - 18) - 1) / (p - 18) ∧
    (∀ t, 1 ≤ t →
      readChunks (p - 18) t
        = min t (p - 18) :: readChunks (p - 18) (t - min t (p - 18))) := by
  have hmax : 1 ≤ p - 18 := by omega
  have heff : effectiveWordLen area WL_BYTE = WL_BYTE := by
    cases area <;> first | rfl | exact absurd rfl hcounter | exact absurd rfl htimer
  have hp0 : ¬ ((p : Int) = 0) := by omega
  have htn1 : (((p : Int) - 18) / 1).toNat = p - 18 := by
    rw [Int.ediv_one]; omega
  have htn2 : ((n : Int) * 1).toNat = n := by
    rw [Int.mul_one]; omega
  have hred : clientRead area db start (n : Int) WL_BYTE (p : Int) responses buffer
      = readLoop (p - 18) 1 ((db % 65536).toNat / 256) ((db % 65536).toNat % 256)
          area.code WL_BYTE n n start 0 responses buffer := by
    simp only [clientRead, heff]
    rw [if_neg (by decide : ¬ (data_size_byte WL_BYTE = 0))]
    rw [if_neg (by decide : ¬ (WL_BYTE = WL_BIT))]
    rw [if_pos (by decide : WL_BYTE ≠ WL_COUNTER ∧ WL_BYTE ≠ WL_TIMER)]
    rw [if_neg hp0]
    have hds : data_size_byte WL_BYTE = 1 := by decide
    have hnn : ((n : Int)).toNat = n := by omega
    simp only [hds, Int.mul_one, hnn, Int.toNat_one]
    rw [htn1]
  have hloop := readLoop_ok (p - 18) 1 ((db % 65536).toNat / 256)
    ((db % 65536).toNat % 256) area.code WL_BYTE hmax n n start 0 responses
    buffer (le_refl n) hlen hresp
  refine ⟨?_, ?_, ?_, ?_⟩
  · rw [hred]; exact hloop.1
  · rw [hred]; exact hloop.2.1
  · rw [hred, hloop.2.2]
    show (readChunks (p - 18) n).length = _
    exact readChunks_length (p - 18) hmax n
  · intro t htpos
    exact readChunks_succ (p - 18) t hmax htpos

end S7

namespace S7

/-- C2 witness: a 2-byte read with PDU length 19 (capacity 1 element per
exchange) against two scripted valid responses issues 2 exchanges. -/
theorem c2_read_chunk_count_witness :
    (Area.Merker ≠ Area.Counter ∧ Area.Merker ≠ Area.Timer ∧ (1 : Nat) ≤ 2 ∧
      (19 : Nat) ≤ 19 ∧
      (2 : Nat) ≤ ([c2resp, c2resp] : List (List Nat)).length ∧
      (∀ r ∈ ([c2resp, c2resp] : List (List Nat)),
        25 ≤ r.length ∧ r.getD 21 0 = 0xFF)) ∧
    ((clientRead .Merker 0 0 ((2 : Nat) : Int) WL_BYTE ((19 : Nat) : Int)
        [c2resp, c2resp] [0, 0]).status = Except.ok () ∧
     (clientRead .Merker 0 0 ((2 : Nat) : Int) WL_BYTE ((19 : Nat) : Int)
        [c2resp, c2resp] [0, 0]).chunks = readChunks (19 - 18) 2 ∧
     (clientRead .Merker 0 0 ((2 : Nat) : Int) WL_BYTE ((19 : Nat) : Int)
        [c2resp, c2resp] [0, 0]).sent.length = (2 + (19 - 18) - 1) / (19 - 18) ∧
     (∀ t, 1 ≤ t →
       readChunks (19 - 18) t
         = min t (19 - 18) :: readChunks (19 - 18) (t - min t (19 - 18)))) :=
  ⟨⟨by decide, by decide, by decide, by decide, by decide, by decide⟩,
   c2_read_chunk_count .Merker 0 0 2 19 [c2resp, c2resp] [0, 0]
     (by decide) (by decide) (by decide) (by decide) (by decide) (by decide)⟩

end S7

namespace S7

/-- Length of the template telegram, helper for the write-field lemmas. -/
theorem READ_WRITE_TELEGRAM_length : READ_WRITE_TELEGRAM.length = 35 := rfl

set_option maxHeartbeats 1000000 in
/-- Helper: in every write request telegram built for a chunk of
`num` elements of `wsz` bytes each, the 16-bit field at [15..17] is the
chunk's data size plus 4, and the 16-bit field at [33..35] is the data size
for bit, counter and timer word lengths and the data size times 8
otherwise. -/
theorem buildWriteRequest_fields (area : Area) (db wl start : Int)
    (num wsz : Nat) (payload : List Nat) (hsize : num * wsz ≤ 8191) :
    be16 (buildWriteRequest area db wl start num wsz payload) 15
        = num * wsz + 4 ∧
    be16 (buildWriteRequest area db wl start num wsz payload) 33
        = (if wl = WL_BIT ∨ wl = WL_COUNTER ∨ wl = WL_TIMER then num * wsz
           else num * wsz * 8) := by
  by_cases h1 : wl = WL_BIT
  · subst h1
    cases area <;>
      simp [buildWriteRequest, writeU16, be16, SIZE_HEADER_WRITE,
        READ_WRITE_TELEGRAM_length, TS_RES_BIT, TS_RES_BYTE, TS_RES_OCTET,
        WL_BIT, WL_COUNTER, WL_TIMER, Area.code,
        List.getElem?_append_left, List.getElem?_take_of_lt,
        List.getElem?_set_ne, List.getElem?_set_self] <;>
      refine ⟨by omega, by omega⟩
  · by_cases h2 : wl = WL_COUNTER
    · subst h2
      cases area <;>
        simp [buildWriteRequest, writeU16, be16, SIZE_HEADER_WRITE,
          READ_WRITE_TELEGRAM_length, TS_RES_BIT, TS_RES_BYTE, TS_RES_OCTET,
          WL_BIT, WL_COUNTER, WL_TIMER, Area.code,
          List.getElem?_append_left, List.getElem?_take_of_lt,
          List.getElem?_set_ne, List.getElem?_set_self] <;>
        refine ⟨by omega, by omega⟩
    · by_cases h3 : wl = WL_TIMER
      · subst h3
        cases area <;>
          simp [buildWriteRequest, writeU16, be16, SIZE_HEADER_WRITE,
            READ_WRITE_TELEGRAM_length, TS_RES_BIT, TS_RES_BYTE, TS_RES_OCTET,
            WL_BIT, WL_COUNTER, WL_TIMER, Area.code,
            List.getElem?_append_left, List.getElem?_take_of_lt,
            List.getElem?_set_ne, List.getElem?_set_self] <;>
          refine ⟨by omega, by omega⟩
      · cases area <;>
          simp [buildWriteRequest, writeU16, be16, SIZE_HEADER_WRITE,
            READ_WRITE_TELEGRAM_length, TS_RES_BIT, TS_RES_BYTE, TS_RES_OCTET,
            h1, h2, h3, Area.code,
            List.getElem?_append_left, List.getElem?_take_of_lt,
            List.getElem?_set_ne, List.getElem?_set_self] <;>
          refine ⟨by omega, by omega⟩

/-- Helper: every `(data_size, request)` pair the write loop hands to the
transport satisfies the two telegram length-field equations. -/
theorem writeLoop_sent (maxE wsz : Nat) (area : Area) (db wl : Int)
    (hbound : maxE * wsz ≤ 8191) :
    ∀ fuel tot start offset responses buffer s req,
      (s, req) ∈ (writeLoop maxE wsz area db wl fuel tot start offset
          responses buffer).sent →
      be16 req 15 = s + 4 ∧
      be16 req 33 = (if wl = WL_BIT ∨ wl = WL_COUNTER ∨ wl = WL_TIMER then s
        else s * 8) := by
  intro fuel
  induction fuel with
  | zero =>
      intro tot start offset responses buffer s req hmem
      by_cases h0 : tot = 0 <;> simp [writeLoop, h0] at hmem
  | succ f ih =>
      intro tot start offset responses buffer s req hmem
      by_cases h0 : tot = 0
      · simp [writeLoop, h0] at hmem
      · have hnum : min tot maxE * wsz ≤ 8191 :=
          le_trans (Nat.mul_le_mul_right wsz (min_le_right tot maxE)) hbound
        have hfields := buildWriteRequest_fields area db wl start
          (min tot maxE) wsz
          ((buffer.drop offset).take (min tot maxE * wsz)) hnum
        rcases responses with _ | ⟨r, rest⟩
        · simp only [writeLoop, if_neg h0, List.mem_singleton,
            Prod.mk.injEq] at hmem
          obtain ⟨hs, hreq⟩ := hmem
          subst hs; subst hreq
          exact hfields
        · by_cases hl : r.length ≠ 22
          · simp only [writeLoop, if_neg h0, if_pos hl, List.mem_singleton,
              Prod.mk.injEq] at hmem
            obtain ⟨hs, hreq⟩ := hmem
            subst hs; subst hreq
            exact hfields
          · by_cases hc : r.getD 21 0 ≠ 0xFF
            · simp only [writeLoop, if_neg h0, if_neg hl, if_pos hc,
                List.mem_singleton, Prod.mk.injEq] at hmem
              obtain ⟨hs, hreq⟩ := hmem
              subst hs; subst hreq
              exact hfields
            · simp only [writeLoop, if_neg h0, if_neg hl, if_neg hc,
                List.mem_cons, Prod.mk.injEq] at hmem
              rcases hmem with ⟨hs, hreq⟩ | hmem
              · subst hs; subst hreq
                exact hfields
              · exact ih _ _ _ _ _ s req hmem

/-- C3 as amended: in every chunk request of a write job with payload size
`s`, the field at bytes [15..17] equals `s + 4` (the data-length field), not
`s` or `s × 8`; the field at bytes [33..35] equals `s` for bit, counter and
timer word lengths and `s × 8` (bits) otherwise.  `pdu ≤ 8226` keeps the
16-bit length fields from wrapping. -/
theorem c3_write_length_fields (area : Area) (db start amount wordLen pdu : Int)
    (responses : List (List Nat)) (buffer : List Nat)
    (hpdu : pdu ≤ 8226) :
    ∀ s req,
      (s, req) ∈ (clientWrite area db start amount wordLen pdu responses
          buffer).sent →
      be16 req 15 = s + 4 ∧
      be16 req 33
        = (if effectiveWordLen area wordLen = WL_BIT ∨
              effectiveWordLen area wordLen = WL_COUNTER ∨
              effectiveWordLen area wordLen = WL_TIMER
           then s else s * 8) := by
  intro s req hmem
  by_cases hbit : effectiveWordLen area wordLen = WL_BIT
  · rw [clientWrite, hbit] at hmem
    rw [if_neg (by decide : ¬ (data_size_byte WL_BIT = 0))] at hmem
    rw [if_pos rfl] at hmem
    have hb : (((pdu - 35) / data_size_byte WL_BIT).toNat)
        * (data_size_byte WL_BIT).toNat ≤ 8191 := by
      have : data_size_byte WL_BIT = 1 := by decide
      rw [this]; simp; omega
    have := writeLoop_sent _ _ area db WL_BIT hb _ _ _ _ _ _ s req hmem
    rw [hbit]
    simpa using this
  · by_cases hctr : effectiveWordLen area wordLen = WL_COUNTER
    · rw [clientWrite, hctr] at hmem
      rw [if_neg (by decide : ¬ (data_size_byte WL_COUNTER = 0))] at hmem
      rw [if_neg (by decide : ¬ (WL_COUNTER = WL_BIT))] at hmem
      rw [if_neg (by decide :
        ¬ (WL_COUNTER ≠ WL_COUNTER ∧ WL_COUNTER ≠ WL_TIMER))] at hmem
      have hb : (((pdu - 35) / data_size_byte WL_COUNTER).toNat)
          * (data_size_byte WL_COUNTER).toNat ≤ 8191 := by
        have : data_size_byte WL_COUNTER = 2 := by decide
        rw [this]; simp; omega
      have := writeLoop_sent _ _ area db WL_COUNTER hb _ _ _ _ _ _ s req hmem
      rw [hctr]
      simpa using this
    · by_cases htmr : effectiveWordLen area wordLen = WL_TIMER
      · rw [clientWrite, htmr] at hmem
        rw [if_neg (by decide : ¬ (data_size_byte WL_TIMER = 0))] at hmem
        rw [if_neg (by decide : ¬ (WL_TIMER = WL_BIT))] at hmem
        rw [if_neg (by decide :
          ¬ (WL_TIMER ≠ WL_COUNTER ∧ WL_TIMER ≠ WL_TIMER))] at hmem
        have hb : (((pdu - 35) / data_size_byte WL_TIMER).toNat)
            * (data_size_byte WL_TIMER).toNat ≤ 8191 := by
          have : data_size_byte WL_TIMER = 2 := by decide
          rw [this]; simp; omega
        have := writeLoop_sent _ _ area db WL_TIMER hb _ _ _ _ _ _ s req hmem
        rw [htmr]
        simpa using this
      · by_cases hws : data_size_byte (effectiveWordLen area wordLen) = 0
        · rw [clientWrite, if_pos hws] at hmem
          simp at hmem
        · rw [clientWrite, if_neg hws] at hmem
          rw [if_neg hbit] at hmem
          rw [if_pos ⟨hctr, htmr⟩] at hmem
          have hb : (((pdu - 35) / (1 : Int)).toNat) * (1 : Int).toNat ≤ 8191 := by
            simp; omega
          have := writeLoop_sent _ _ area db WL_BYTE hb _ _ _ _ _ _ s req hmem
          rw [if_neg (by simp [hbit, hctr, htmr])]
          simpa using this

/-- C3 counterexample: a single-chunk write of one byte (`size = 1`, word
length Byte, PDU 100) produces a request whose [15..17] field is 5
(`= 1 + 4`), not `1 × 8 = 8` as the claim states; the [33..35] field is 8. -/
theorem c3_write_length_counterexample :
    ((clientWrite .DataBausteine 1 0 1 WL_BYTE 100 [c3resp] [0xAB]).sent.map
        (fun pr => (pr.1, be16 pr.2 15, be16 pr.2 33)))
      = [(1, 5, 8)] ∧ (5 : Nat) ≠ 1 * 8 := by
  refine ⟨by decide, by decide⟩

/-- C3 witness: the amended theorem applied to the same concrete one-byte
write. -/
theorem c3_write_length_fields_witness :
    ((100 : Int) ≤ 8226 ∧
      ((1 : Nat), c3req)
        ∈ (clientWrite .DataBausteine 1 0 1 WL_BYTE 100 [c3resp]
            [0xAB]).sent) ∧
    (be16 c3req 15 = 1 + 4 ∧
     be16 c3req 33
       = (if effectiveWordLen .DataBausteine WL_BYTE = WL_BIT ∨
             effectiveWordLen .DataBausteine WL_BYTE = WL_COUNTER ∨
             effectiveWordLen .DataBausteine WL_BYTE = WL_TIMER
          then 1 else 1 * 8)) :=
  ⟨⟨by decide, by decide⟩,
   c3_write_length_fields .DataBausteine 1 0 1 WL_BYTE 100 [c3resp] [0xAB]
     (by decide) 1 c3req (by decide)⟩

end S7
